import Mathlib

set_option autoImplicit false

/-!
Shallow embedding of the draft/sync reconciliation engine, sync gateway
and config store of the Grade-Speeder repository.

Sources embedded here:
- `frontend/src/api.ts` (`createInitialDrafts`)
- `frontend/src/types.ts` (`DraftState`, `StudentSubmission`, `SubmissionUpdate`,
  `SyncResult`, `PublicConfig`)
- `frontend/src/App.tsx` (`updateDraft`, `handleGradeChange`, `handleCommentChange`,
  `handleRubricCommentChange`, `handleCopyToGroup`, `handleCopyGradeToGroup`,
  `handleStatusChange`, `handleSync`, `handleClearAllStaged`, `handleClearStudentStaged`)
- `backend/src/canvasClient.ts` (`pushSubmissionUpdates`)
- `backend/src/config.ts` (`getPublicConfig`, `updateConfig`)

JS numbers are modelled as `ℚ`; JS `Record` objects keyed by strings are
modelled as association lists with JS object-update semantics; `Record`s keyed
by numbers (the draft map) are modelled as functions `ℕ → Option DraftState`
(`none` = key absent).  Nullable/optional values are `Option`.
-/

namespace GradeSpeeder

/-- Submission status enum (`frontend/src/types.ts`, `SubmissionStatus`). -/
inductive SubmissionStatus where
  | none
  | late
  | missing
  | excused
deriving DecidableEq, Repr

/-- Per-student editing surface (`frontend/src/types.ts`, `DraftState`).
`rubricComments` is a JS object criterionId → comment, modelled as an
association list. -/
structure DraftState where
  grade : Option ℚ
  comment : String
  baseGrade : Option ℚ
  baseComment : String
  gradeDirty : Bool
  commentDirty : Bool
  synced : Bool
  status : SubmissionStatus
  baseStatus : SubmissionStatus
  statusDirty : Bool
  rubricComments : List (String × String)
  rubricCommentsDirty : Bool
deriving DecidableEq, Repr

/-- A rubric assessment entry (`frontend/src/types.ts`, the values of
`StudentSubmission.rubricAssessments`). -/
structure RubricAssessment where
  rating_id : String
  comments : String
  points : ℚ
deriving DecidableEq, Repr

/-- The fields of `StudentSubmission` (`frontend/src/types.ts`) that the
reconciliation engine reads.  `rubricAssessments` is optional in the source
(`none` = the key is absent). -/
structure StudentSubmission where
  userId : ℕ
  groupId : Option ℕ
  hasSubmission : Bool
  late : Bool
  missing : Bool
  excused : Bool
  score : Option ℚ
  rubricAssessments : Option (List (String × RubricAssessment))
deriving DecidableEq, Repr

/-- The draft map `Record<number, DraftState>`: `none` means the key is absent. -/
def DraftMap : Type := ℕ → Option DraftState

/-- JS object property write `m[k] = d` on a numeric-keyed record. -/
def setDraft (m : DraftMap) (k : ℕ) (d : DraftState) : DraftMap :=
  fun x => if x = k then some d else m x

/-- JS string-or-default `a || b` on strings (falsy = empty string). -/
def jsOrStr (a b : String) : String :=
  if a = "" then b else a

/-- JS object property write `m[k] = v` on a string-keyed record: an existing
key is overwritten in place, a new key is appended. -/
def objSet (m : List (String × String)) (k v : String) : List (String × String) :=
  if m.any (fun kv => kv.1 = k) then
    m.map (fun kv => if kv.1 = k then (k, v) else kv)
  else
    m ++ [(k, v)]

/-- JS object property read `m[k]` on a string-keyed record. -/
def objGet (m : List (String × String)) (k : String) : Option String :=
  (m.find? (fun kv => kv.1 = k)).map (fun kv => kv.2)

/-- Initial status derivation inside `createInitialDrafts`
(`frontend/src/api.ts:62-66`): precedence excused > missing > late > none. -/
def initialStatus (sub : StudentSubmission) : SubmissionStatus :=
  if sub.excused then SubmissionStatus.excused
  else if sub.missing then SubmissionStatus.missing
  else if sub.late then SubmissionStatus.late
  else SubmissionStatus.none

/-- The draft seeded for one submission: the object literal assigned to
`drafts[sub.userId]` in `createInitialDrafts` (`frontend/src/api.ts:68-83`).
`val.comments || ''` is `jsOrStr`. -/
def mkInitialDraft (sub : StudentSubmission) : DraftState :=
  { grade := sub.score
    comment := ""
    baseGrade := sub.score
    baseComment := ""
    gradeDirty := false
    commentDirty := false
    synced := true
    status := initialStatus sub
    baseStatus := initialStatus sub
    statusDirty := false
    rubricComments :=
      match sub.rubricAssessments with
      | some entries => entries.map (fun kv => (kv.1, jsOrStr kv.2.comments ""))
      | Option.none => []
    rubricCommentsDirty := false }

/-- `createInitialDrafts(submissions)` (`frontend/src/api.ts:59-87`): builds a
fresh draft map with one entry per submission (`forEach` assignment = left fold
of object writes over the submission list). -/
def createInitialDrafts (subs : List StudentSubmission) : DraftMap :=
  subs.foldl (fun drafts sub => setDraft drafts sub.userId (mkInitialDraft sub))
    (fun _ => Option.none)

/-- The `Partial<DraftState>` patches that `App.tsx` actually passes to
`updateDraft`: only `grade` and `comment` occur at its call sites
(`handleGradeChange`, `handleCommentChange`).  An outer `none` means the key is
absent from the patch. -/
structure DraftPatch where
  grade : Option (Option ℚ) := Option.none
  comment : Option String := Option.none

/-- The next draft computed by `updateDraft` (`frontend/src/App.tsx:415-425`)
for an existing entry: merge the patch, recompute `gradeDirty` and
`commentDirty` against the (unchanged) bases, and recompute `synced` from those
two flags only. -/
def updateDraftNext (current : DraftState) (changes : DraftPatch) : DraftState :=
  let merged : DraftState :=
    { current with
      grade := changes.grade.getD current.grade
      comment := changes.comment.getD current.comment }
  let gradeDirty := decide (merged.grade ≠ current.baseGrade)
  let commentDirty := decide (merged.comment ≠ current.baseComment)
  { merged with
    gradeDirty := gradeDirty
    commentDirty := commentDirty
    synced := !(gradeDirty || commentDirty) }

/-- `updateDraft(userId, changes)` (`frontend/src/App.tsx:415-425`): no-op when
no draft exists for the id. -/
def updateDraft (userId : ℕ) (changes : DraftPatch) (drafts : DraftMap) : DraftMap :=
  match drafts userId with
  | Option.none => drafts
  | some current => setDraft drafts userId (updateDraftNext current changes)

/-- Modelled from the host primitive: the digit value of a decimal digit list. -/
def digitsVal (l : List Char) : ℕ :=
  l.foldl (fun acc c => acc * 10 + (c.toNat - 48)) 0

/-- Modelled from the host primitive: JS `Number(s)` on an unsigned decimal
numeral (`digits`, `digits.digits`, `.digits`, `digits.`); `none` is NaN. -/
def parseUnsignedDec (s : List Char) : Option ℚ :=
  let intPart := s.takeWhile (fun c => c.isDigit)
  let rest := s.drop intPart.length
  match rest with
  | [] => if intPart = [] then Option.none else some ((digitsVal intPart : ℕ) : ℚ)
  | '.' :: frac =>
    if frac.all (fun c => c.isDigit) ∧ (intPart ≠ [] ∨ frac ≠ []) then
      some (((digitsVal intPart : ℕ) : ℚ) + ((digitsVal frac : ℕ) : ℚ) / ((10 : ℚ) ^ frac.length))
    else Option.none
  | _ => Option.none

/-- Modelled from the host primitive: the JS `Number(value)` string-to-number
conversion used by `handleGradeChange`, restricted to plain signed decimal
numerals after whitespace trimming (the grade input's value space).  `none` is
NaN; exotic convertible forms (exponents, hex, `Infinity`) are outside the
model and map to `none`. -/
def jsNumber (value : String) : Option ℚ :=
  let s := ((value.toList.dropWhile (fun c => c.isWhitespace)).reverse.dropWhile
    (fun c => c.isWhitespace)).reverse
  match s with
  | [] => some 0
  | '+' :: rest => parseUnsignedDec rest
  | '-' :: rest => (parseUnsignedDec rest).map (fun q => -q)
  | _ => parseUnsignedDec s

/-- `handleGradeChange(userId, value)` (`frontend/src/App.tsx:427-440`):
`num = value === '' ? null : Number(value)`; a non-empty value whose parse is
NaN is rejected (state unchanged); otherwise `updateDraft(userId, {grade: num})`.
The session-stats `setDrafts` callback returns `prev` and is a no-op on the map. -/
def handleGradeChange (userId : ℕ) (value : String) (drafts : DraftMap) : DraftMap :=
  let num : Option ℚ := if value = "" then Option.none else jsNumber value
  if value ≠ "" ∧ jsNumber value = Option.none then drafts
  else updateDraft userId { grade := some num } drafts

/-- `handleCommentChange(userId, value)` (`frontend/src/App.tsx:442-444`). -/
def handleCommentChange (userId : ℕ) (value : String) (drafts : DraftMap) : DraftMap :=
  updateDraft userId { comment := some value } drafts

/-- The next draft computed by `handleRubricCommentChange` for an existing
entry (`frontend/src/App.tsx:446-464`): merge the comment into the rubric map,
set `rubricCommentsDirty := true` unconditionally, recompute `synced` from all
four flags. -/
def rubricCommentNext (current : DraftState) (criterionId value : String) : DraftState :=
  let next : DraftState :=
    { current with
      rubricComments := objSet current.rubricComments criterionId value
      rubricCommentsDirty := true }
  { next with
    synced := !(next.gradeDirty || next.commentDirty || next.statusDirty ||
      next.rubricCommentsDirty) }

/-- `handleRubricCommentChange(userId, criterionId, value)`
(`frontend/src/App.tsx:446-464`). -/
def handleRubricCommentChange (userId : ℕ) (criterionId value : String)
    (drafts : DraftMap) : DraftMap :=
  match drafts userId with
  | Option.none => drafts
  | some current => setDraft drafts userId (rubricCommentNext current criterionId value)

/-- The next draft computed by `handleStatusChange` for an existing entry
(`frontend/src/App.tsx:528-536`): set the status, recompute `statusDirty`
against the base, recompute `synced` from `gradeDirty`, `commentDirty`,
`statusDirty` (ignoring `rubricCommentsDirty`). -/
def statusNext (current : DraftState) (status : SubmissionStatus) : DraftState :=
  let next : DraftState :=
    { current with
      status := status
      statusDirty := decide (status ≠ current.baseStatus) }
  { next with synced := !(next.gradeDirty || next.commentDirty || next.statusDirty) }

/-- `handleStatusChange(userId, status)` (`frontend/src/App.tsx:528-536`). -/
def handleStatusChange (userId : ℕ) (status : SubmissionStatus)
    (drafts : DraftMap) : DraftMap :=
  match drafts userId with
  | Option.none => drafts
  | some current => setDraft drafts userId (statusNext current status)

/-- JS truthiness of a nullable numeric `groupId` (`!student.groupId` is true
for `null`, `undefined` and `0`). -/
def jsTruthyGroupId : Option ℕ → Bool
  | Option.none => false
  | some g => decide (g ≠ 0)

/-- The record written onto each group member by `handleCopyToGroup`
(`frontend/src/App.tsx:483-488`): the comment is copied and `commentDirty` and
`synced` are forced, with no comparison against the member's base comment. -/
def copyCommentNext (current : DraftState) (comment : String) : DraftState :=
  { current with comment := comment, commentDirty := true, synced := false }

/-- The record written onto each group member by `handleCopyGradeToGroup`
(`frontend/src/App.tsx:514-519`): `gradeDirty` is recomputed against the
member's base grade but `synced` is forced to false. -/
def copyGradeNext (current : DraftState) (grade : ℚ) : DraftState :=
  { current with
    grade := some grade
    gradeDirty := decide (some grade ≠ current.baseGrade)
    synced := false }

/-- One step of the member loop in the copy-to-group handlers (and of the
`successIds` loop in `handleSync`): look the id up in the map, skip when
absent, otherwise overwrite with `f` of the current draft. -/
def updateStep (f : DraftState → DraftState) (next : DraftMap) (id : ℕ) : DraftMap :=
  match next id with
  | Option.none => next
  | some current => setDraft next id (f current)

/-- A `forEach` of guarded in-place overwrites over a list of ids. -/
def updateEach (f : DraftState → DraftState) (ids : List ℕ) (m : DraftMap) : DraftMap :=
  ids.foldl (updateStep f) m

/-- `handleCopyToGroup(userId, comment)` (`frontend/src/App.tsx:466-495`):
no-op when the source student is missing or has a falsy `groupId`; otherwise
every *other* draft in the same group receives the copied comment. -/
def handleCopyToGroup (subs : List StudentSubmission) (userId : ℕ) (comment : String)
    (drafts : DraftMap) : DraftMap :=
  match subs.find? (fun s => decide (s.userId = userId)) with
  | Option.none => drafts
  | some student =>
    if !jsTruthyGroupId student.groupId then drafts
    else
      let groupMembers := subs.filter
        (fun s => decide (s.groupId = student.groupId ∧ s.userId ≠ userId))
      updateEach (fun current => copyCommentNext current comment)
        (groupMembers.map (fun m => m.userId)) drafts

/-- `handleCopyGradeToGroup(userId, grade)` (`frontend/src/App.tsx:497-526`):
additionally a no-op when the copied grade is `null`. -/
def handleCopyGradeToGroup (subs : List StudentSubmission) (userId : ℕ)
    (grade : Option ℚ) (drafts : DraftMap) : DraftMap :=
  match grade with
  | Option.none => drafts
  | some g =>
    match subs.find? (fun s => decide (s.userId = userId)) with
    | Option.none => drafts
    | some student =>
      if !jsTruthyGroupId student.groupId then drafts
      else
        let groupMembers := subs.filter
          (fun s => decide (s.groupId = student.groupId ∧ s.userId ≠ userId))
        updateEach (fun current => copyGradeNext current g)
          (groupMembers.map (fun m => m.userId)) drafts

/-- The cleared draft written by both clear-staged handlers
(`frontend/src/App.tsx:768-780` and `791-805`): current grade/comment/status
are reset to their bases and all four dirty flags are cleared; note that
`rubricComments` itself is left untouched (there is no stored base snapshot). -/
def clearDraft (draft : DraftState) : DraftState :=
  { draft with
    grade := draft.baseGrade
    comment := draft.baseComment
    status := draft.baseStatus
    gradeDirty := false
    commentDirty := false
    statusDirty := false
    rubricCommentsDirty := false
    synced := true }

/-- `handleClearAllStaged` (`frontend/src/App.tsx:765-784`): rebuilds the map
entry-by-entry with `clearDraft`; extensionally a pointwise map. -/
def handleClearAllStaged (drafts : DraftMap) : DraftMap :=
  fun userId => (drafts userId).map clearDraft

/-- `handleClearStudentStaged(userId)` (`frontend/src/App.tsx:787-806`). -/
def handleClearStudentStaged (userId : ℕ) (drafts : DraftMap) : DraftMap :=
  match drafts userId with
  | Option.none => drafts
  | some draft => setDraft drafts userId (clearDraft draft)

/-- `SubmissionUpdate` (`frontend/src/types.ts` / `backend/src/types.ts`).
`statusChanged`/`newStatus` are optional keys; `none` = absent. -/
structure SubmissionUpdate where
  userId : ℕ
  gradeChanged : Bool
  newGrade : Option ℚ
  commentChanged : Bool
  newComment : Option String
  statusChanged : Option Bool
  newStatus : Option SubmissionStatus
  rubricCommentsChanged : Bool
  newRubricComments : Option (List (String × String))
deriving DecidableEq, Repr

/-- `SyncResult` (`frontend/src/types.ts` / `backend/src/types.ts`);
`errors` is an optional key. -/
structure SyncResult where
  userId : ℕ
  success : Bool
  errors : Option (List String)
deriving DecidableEq, Repr

/-- The update object built per submission in `handleSync`
(`frontend/src/App.tsx:643-651`): it carries grade, comment and
rubric-comment change flags and values; the optional status keys are never
assigned. -/
def mkUpdate (s : StudentSubmission) (draft : DraftState) : SubmissionUpdate :=
  { userId := s.userId
    gradeChanged := draft.gradeDirty
    newGrade := draft.grade
    commentChanged := draft.commentDirty
    newComment := some draft.comment
    statusChanged := Option.none
    newStatus := Option.none
    rubricCommentsChanged := draft.rubricCommentsDirty
    newRubricComments := some draft.rubricComments }

/-- The build-all step of `handleSync` (`frontend/src/App.tsx:639-653`):
one update per submission that has a draft, regardless of dirtiness
(`map` to nullable then `.filter(Boolean)`). -/
def buildUpdates (subs : List StudentSubmission) (drafts : DraftMap) :
    List SubmissionUpdate :=
  subs.filterMap (fun s => (drafts s.userId).map (fun draft => mkUpdate s draft))

/-- The caller filter of `handleSync` (`frontend/src/App.tsx:655`): only
updates with a grade, comment or rubric-comments change are sent. -/
def toSend (updates : List SubmissionUpdate) : List SubmissionUpdate :=
  updates.filter (fun u => u.gradeChanged || u.commentChanged || u.rubricCommentsChanged)

/-- The reconciled draft written for each successful id in `handleSync`
(`frontend/src/App.tsx:671-680`): grade and comment bases advance, all four
dirty flags clear, `synced := true`; `baseStatus` and the rubric comments are
not touched. -/
def reconcileOne (current : DraftState) : DraftState :=
  { current with
    baseGrade := current.grade
    baseComment := current.comment
    gradeDirty := false
    commentDirty := false
    statusDirty := false
    rubricCommentsDirty := false
    synced := true }

/-- The reconciliation step of `handleSync` (`frontend/src/App.tsx:664-683`):
collect the ids of the successful results and overwrite each corresponding
draft (skipping ids without a draft) with its reconciled record. -/
def reconcileDrafts (results : List SyncResult) (drafts : DraftMap) : DraftMap :=
  let successIds := (results.filter (fun r => r.success)).map (fun r => r.userId)
  updateEach reconcileOne successIds drafts

/-- Keys of the form-encoded Canvas payload built by `pushSubmissionUpdates`
(`backend/src/canvasClient.ts:387-398`). -/
inductive PayloadKey where
  | postedGrade
  | textComment
  | rubricComment (criterionId : String)
deriving DecidableEq, Repr

/-- Values of the Canvas payload; `none` inside is JS `null`. -/
inductive PayloadValue where
  | num (v : Option ℚ)
  | str (v : Option String)
deriving DecidableEq, Repr

/-- A Canvas write payload (`backend/src/canvasClient.ts:387`). -/
abbrev Payload : Type := List (PayloadKey × PayloadValue)

/-- The payload built for one update (`backend/src/canvasClient.ts:387-398`):
`submission[posted_grade]` iff `gradeChanged`, `comment[text_comment]` iff
`commentChanged`, and one `rubric_assessment[cid][comments]` key per entry of
`newRubricComments` iff `rubricCommentsChanged` and the map is present. -/
def buildPayload (u : SubmissionUpdate) : Payload :=
  (if u.gradeChanged then [(PayloadKey.postedGrade, PayloadValue.num u.newGrade)] else [])
  ++ (if u.commentChanged then [(PayloadKey.textComment, PayloadValue.str u.newComment)] else [])
  ++ (match u.rubricCommentsChanged, u.newRubricComments with
      | true, some m =>
        m.map (fun kv => (PayloadKey.rubricComment kv.1, PayloadValue.str (some kv.2)))
      | _, _ => [])

/-- One iteration of the loop in `pushSubmissionUpdates`
(`backend/src/canvasClient.ts:381-416`): an update with no change flags is
skipped with an immediate success result and no write; otherwise one `PUT` is
issued and its outcome (success, or failure caught with the generic error
string) is recorded.  The external Canvas `PUT` is modelled by the oracle
`writeOk` deciding, per request `(userId, payload)`, whether the call
succeeds.  Returns the result plus the list of writes issued (empty or a
singleton). -/
def pushStep (writeOk : ℕ → Payload → Bool) (u : SubmissionUpdate) :
    SyncResult × List (ℕ × Payload) :=
  if !u.gradeChanged && !u.commentChanged && !u.rubricCommentsChanged then
    ({ userId := u.userId, success := true, errors := Option.none }, [])
  else
    let payload := buildPayload u
    if writeOk u.userId payload then
      ({ userId := u.userId, success := true, errors := Option.none },
        [(u.userId, payload)])
    else
      ({ userId := u.userId, success := false,
         errors := some ["Failed to sync with Canvas"] },
        [(u.userId, payload)])

/-- `pushSubmissionUpdates(config, updates)`
(`backend/src/canvasClient.ts:377-419`): a sequential loop accumulating one
result per update; the second component is the trace of issued Canvas writes. -/
def pushSubmissionUpdates (writeOk : ℕ → Payload → Bool)
    (updates : List SubmissionUpdate) : List SyncResult × List (ℕ × Payload) :=
  updates.foldl
    (fun acc u =>
      let step := pushStep writeOk u
      (acc.1 ++ [step.1], acc.2 ++ step.2))
    ([], [])

/-- Log levels (`backend/src/types.ts`). -/
inductive LogLevel where
  | debug
  | info
  | warn
  | error
deriving DecidableEq, Repr

/-- Key bindings record (`backend/src/types.ts`, `KeybindingsConfig`): one list
of key chords per action. -/
structure KeybindingsConfig where
  nextField : List String
  prevField : List String
  nextStudentSameField : List String
  prevStudentSameField : List String
deriving DecidableEq, Repr

/-- Stored backend configuration (`backend/src/types.ts`, `PrivateConfig`).
`accessToken` is `string | undefined` (`none` = unset); `baseUrl` is a plain
string defaulting to `''`. -/
structure PrivateConfig where
  baseUrl : String
  courseId : Option ℤ
  assignmentId : Option ℤ
  accessToken : Option String
  keybindings : KeybindingsConfig
  logLevel : LogLevel
deriving DecidableEq, Repr

/-- Redacted configuration view (`backend/src/types.ts`, `PublicConfig`):
it has no access-token field, only `tokenPresent`. -/
structure PublicConfig where
  baseUrl : String
  courseId : Option ℤ
  assignmentId : Option ℤ
  keybindings : KeybindingsConfig
  logLevel : LogLevel
  tokenPresent : Bool
deriving DecidableEq, Repr

/-- JS `Boolean(x)` on a `string | undefined` value: false exactly for
`undefined` and the empty string. -/
def jsTruthyStr : Option String → Bool
  | Option.none => false
  | some s => decide (s ≠ "")

/-- `getPublicConfig()` (`backend/src/config.ts:69-79`), with the loaded
config made an explicit argument. -/
def getPublicConfig (config : PrivateConfig) : PublicConfig :=
  { baseUrl := config.baseUrl
    courseId := config.courseId
    assignmentId := config.assignmentId
    keybindings := config.keybindings
    logLevel := config.logLevel
    tokenPresent := jsTruthyStr config.accessToken }

/-- State of one key in a partial JS update object: absent, explicit `null`,
or an explicit value. -/
inductive Patch (α : Type) where
  | absent
  | null
  | value (v : α)
deriving DecidableEq, Repr

/-- The partial update accepted by `updateConfig`
(`backend/src/config.ts:81`): `Partial<PrivateConfig> & {accessToken?: string | null}`,
restricted to the keys the function reads.  `keybindings` and `logLevel` are
modelled as present-or-absent (`updateConfig` treats their `null` like absent
via truthiness / `||`). -/
structure ConfigUpdate where
  baseUrl : Patch String := Patch.absent
  courseId : Patch ℤ := Patch.absent
  assignmentId : Patch ℤ := Patch.absent
  accessToken : Patch String := Patch.absent
  keybindings : Option KeybindingsConfig := Option.none
  logLevel : Option LogLevel := Option.none

/-- `updateConfig(update)` (`backend/src/config.ts:81-121`), with the stored
config made an explicit argument and the new stored config returned (the
source also persists it and returns `getPublicConfig()` of it):
- `keybindings`: replaced when provided (spreading a total record over the
  existing one yields the update), kept otherwise;
- `logLevel`: `update.logLevel || existing.logLevel || envLogLevel` — the
  existing level is always set, so a missing update key keeps it;
- `accessToken`: `undefined` keeps the existing token, `null` and `''` clear
  it, any other string overwrites it;
- `baseUrl`: applied only if the key is present, via `update.baseUrl ?? existing.baseUrl`,
  so an explicit `null` keeps the existing value;
- `courseId` / `assignmentId`: applied only if the key is present, via
  `update.x ?? null`, so an explicit `null` clears them. -/
def updateConfig (existing : PrivateConfig) (update : ConfigUpdate) : PrivateConfig :=
  { baseUrl :=
      match update.baseUrl with
      | Patch.absent => existing.baseUrl
      | Patch.null => existing.baseUrl
      | Patch.value v => v
    courseId :=
      match update.courseId with
      | Patch.absent => existing.courseId
      | Patch.null => Option.none
      | Patch.value v => some v
    assignmentId :=
      match update.assignmentId with
      | Patch.absent => existing.assignmentId
      | Patch.null => Option.none
      | Patch.value v => some v
    accessToken :=
      match update.accessToken with
      | Patch.absent => existing.accessToken
      | Patch.null => Option.none
      | Patch.value v => if v = "" then Option.none else some v
    keybindings :=
      match update.keybindings with
      | some kb => kb
      | Option.none => existing.keybindings
    logLevel :=
      match update.logLevel with
      | some l => l
      | Option.none => existing.logLevel }

/-! Concrete fixtures for witnesses and counterexamples. -/

/-- The empty draft map. -/
def emptyDrafts : DraftMap := fun _ => Option.none

/-- A key-bindings record for config fixtures. -/
def kbFixture : KeybindingsConfig :=
  { nextField := ["Tab"], prevField := ["Shift+Tab"],
    nextStudentSameField := ["ArrowRight"], prevStudentSameField := ["ArrowLeft"] }

/-- A draft whose only dirty flag is `statusDirty` (its values agree with one
produced by `handleStatusChange` on a clean draft). -/
def c1Draft : DraftState :=
  { grade := some 1, comment := "", baseGrade := some 1, baseComment := "",
    gradeDirty := false, commentDirty := false, synced := false,
    status := SubmissionStatus.late, baseStatus := SubmissionStatus.none,
    statusDirty := true, rubricComments := [], rubricCommentsDirty := false }

/-- A one-entry draft map holding `c1Draft` at user 1. -/
def c1Drafts : DraftMap := setDraft emptyDrafts 1 c1Draft

/-- A dirty draft for user 1 (sync succeeds for it). -/
def c2Draft1 : DraftState :=
  { grade := some 95, comment := "well done", baseGrade := some 90, baseComment := "",
    gradeDirty := true, commentDirty := true, synced := false,
    status := SubmissionStatus.none, baseStatus := SubmissionStatus.none,
    statusDirty := false, rubricComments := [], rubricCommentsDirty := false }

/-- A dirty draft for user 2 (sync fails for it). -/
def c2Draft2 : DraftState :=
  { grade := some 40, comment := "retry", baseGrade := some 50, baseComment := "",
    gradeDirty := true, commentDirty := true, synced := false,
    status := SubmissionStatus.late, baseStatus := SubmissionStatus.none,
    statusDirty := true, rubricComments := [("c1", "x")], rubricCommentsDirty := true }

/-- Draft map with the two dirty drafts above. -/
def c2Drafts : DraftMap := setDraft (setDraft emptyDrafts 1 c2Draft1) 2 c2Draft2

/-- Sync results: user 1 succeeded, user 2 failed. -/
def c2Results : List SyncResult :=
  [{ userId := 1, success := true, errors := Option.none },
   { userId := 2, success := false, errors := some ["Failed to sync with Canvas"] }]

/-- A rubric assessment carrying an existing comment. -/
def c3Assessment : RubricAssessment :=
  { rating_id := "r1", comments := "good", points := 3 }

/-- A late submission with a score and one rubric assessment. -/
def c3Sub : StudentSubmission :=
  { userId := 7, groupId := Option.none, hasSubmission := true, late := true,
    missing := false, excused := false, score := some 88,
    rubricAssessments := some [("c1", c3Assessment)] }

/-- A submission for user 1 with no groups or rubric. -/
def c4Sub : StudentSubmission :=
  { userId := 1, groupId := Option.none, hasSubmission := true, late := false,
    missing := false, excused := false, score := some 10,
    rubricAssessments := Option.none }

/-- A draft whose only dirty flag is `statusDirty`. -/
def c4Draft : DraftState :=
  { grade := some 10, comment := "", baseGrade := some 10, baseComment := "",
    gradeDirty := false, commentDirty := false, synced := false,
    status := SubmissionStatus.excused, baseStatus := SubmissionStatus.none,
    statusDirty := true, rubricComments := [], rubricCommentsDirty := false }

/-- Draft map holding `c4Draft` at user 1. -/
def c4Drafts : DraftMap := setDraft emptyDrafts 1 c4Draft

/-- A grade-dirty draft used to witness inclusion in the flushed batch. -/
def c4DirtyDraft : DraftState :=
  { grade := some 77, comment := "", baseGrade := some 10, baseComment := "",
    gradeDirty := true, commentDirty := false, synced := false,
    status := SubmissionStatus.none, baseStatus := SubmissionStatus.none,
    statusDirty := false, rubricComments := [], rubricCommentsDirty := false }

/-- Draft map holding `c4DirtyDraft` at user 1. -/
def c4DirtyDrafts : DraftMap := setDraft emptyDrafts 1 c4DirtyDraft

/-- A clean draft for the grade-validation witness. -/
def c5Draft : DraftState :=
  { grade := some 12, comment := "", baseGrade := some 12, baseComment := "",
    gradeDirty := false, commentDirty := false, synced := true,
    status := SubmissionStatus.none, baseStatus := SubmissionStatus.none,
    statusDirty := false, rubricComments := [], rubricCommentsDirty := false }

/-- Draft map holding `c5Draft` at user 3. -/
def c5Drafts : DraftMap := setDraft emptyDrafts 3 c5Draft

/-- A submission whose rubric assessment has the existing comment `"orig"`. -/
def c6Sub : StudentSubmission :=
  { userId := 1, groupId := Option.none, hasSubmission := true, late := false,
    missing := false, excused := false, score := some 5,
    rubricAssessments := some [("c1", { rating_id := "", comments := "orig", points := 1 })] }

/-- Drafts created from `c6Sub`, then the rubric comment is edited to
`"edited"`. -/
def c6DraftsEdited : DraftMap :=
  handleRubricCommentChange 1 "c1" "edited" (createInitialDrafts [c6Sub])

/-- A draft with staged edits on every field, used to witness the clear
operations. -/
def c6SimpleDraft : DraftState :=
  { grade := some 66, comment := "new", baseGrade := some 60, baseComment := "",
    gradeDirty := true, commentDirty := true, synced := false,
    status := SubmissionStatus.missing, baseStatus := SubmissionStatus.none,
    statusDirty := true, rubricComments := [("c1", "y")], rubricCommentsDirty := true }

/-- Draft map holding `c6SimpleDraft` at user 4. -/
def c6SimpleDrafts : DraftMap := setDraft emptyDrafts 4 c6SimpleDraft

/-- An update that changes only the grade of user 1. -/
def c7Upd1 : SubmissionUpdate :=
  { userId := 1, gradeChanged := true, newGrade := some 95, commentChanged := false,
    newComment := some "", statusChanged := Option.none, newStatus := Option.none,
    rubricCommentsChanged := false, newRubricComments := some [] }

/-- An update that changes only the comment of user 2. -/
def c7Upd2 : SubmissionUpdate :=
  { userId := 2, gradeChanged := false, newGrade := Option.none, commentChanged := true,
    newComment := some "nice", statusChanged := Option.none, newStatus := Option.none,
    rubricCommentsChanged := false, newRubricComments := some [] }

/-- A write oracle under which every write for user 2 fails. -/
def c7WriteOk : ℕ → Payload → Bool := fun uid _ => decide (uid ≠ 2)

/-- An update none of whose change flags is set. -/
def c10Upd : SubmissionUpdate :=
  { userId := 9, gradeChanged := false, newGrade := some 1, commentChanged := false,
    newComment := some "stale", statusChanged := Option.none, newStatus := Option.none,
    rubricCommentsChanged := false, newRubricComments := some [("c1", "z")] }

/-- A write oracle under which every write succeeds. -/
def c10WriteOk : ℕ → Payload → Bool := fun _ _ => true

/-- A fully populated stored config. -/
def cfg8 : PrivateConfig :=
  { baseUrl := "https://canvas.example/api/v1", courseId := some 7,
    assignmentId := some 9, accessToken := some "tok",
    keybindings := kbFixture, logLevel := LogLevel.info }

/-- A stored config for the redaction witness. -/
def cfg9 : PrivateConfig :=
  { baseUrl := "https://canvas.example/api/v1", courseId := some 1,
    assignmentId := some 2, accessToken := some "secret-a",
    keybindings := kbFixture, logLevel := LogLevel.warn }

/-! Helper lemmas about map updates and the fold patterns of the handlers. -/

theorem setDraft_self (m : DraftMap) (k : ℕ) (d : DraftState) :
    setDraft m k d k = some d := by
  simp [setDraft]

theorem setDraft_other (m : DraftMap) (k x : ℕ) (d : DraftState) (h : x ≠ k) :
    setDraft m k d x = m x := by
  simp [setDraft, h]

theorem updateStep_other (f : DraftState → DraftState) (m : DraftMap) (id x : ℕ)
    (h : x ≠ id) : updateStep f m id x = m x := by
  unfold updateStep
  cases m id with
  | none => rfl
  | some current => exact setDraft_other m id x (f current) h

theorem updateStep_self (f : DraftState → DraftState) (m : DraftMap) (id : ℕ) :
    updateStep f m id id = (m id).map f := by
  unfold updateStep
  cases h : m id with
  | none => simp [h]
  | some current => simp [h, setDraft_self]

theorem updateEach_cons (f : DraftState → DraftState) (a : ℕ) (t : List ℕ)
    (m : DraftMap) : updateEach f (a :: t) m = updateEach f t (updateStep f m a) := rfl

theorem updateEach_lookup_not_mem (f : DraftState → DraftState) :
    ∀ (ids : List ℕ) (m : DraftMap) (x : ℕ), x ∉ ids → updateEach f ids m x = m x
  | [], _, _, _ => rfl
  | a :: t, m, x, hx => by
    rw [updateEach_cons]
    have hxa : x ≠ a := fun h => hx (h ▸ List.mem_cons_self a t)
    have hxt : x ∉ t := fun h => hx (List.mem_cons_of_mem a h)
    rw [updateEach_lookup_not_mem f t _ x hxt, updateStep_other f m a x hxa]

theorem updateEach_lookup_mem (f : DraftState → DraftState) :
    ∀ (ids : List ℕ) (m : DraftMap) (x : ℕ), x ∈ ids → ids.Nodup →
      updateEach f ids m x = (m x).map f
  | [], _, x, hx, _ => absurd hx (List.not_mem_nil x)
  | a :: t, m, x, hx, hnd => by
    rw [updateEach_cons]
    rcases List.mem_cons.mp hx with h | h
    · subst h
      have hnt : x ∉ t := (List.nodup_cons.mp hnd).1
      rw [updateEach_lookup_not_mem f t _ x hnt, updateStep_self]
    · have hxa : x ≠ a := by
        intro e
        exact (List.nodup_cons.mp hnd).1 (e ▸ h)
      rw [updateEach_lookup_mem f t _ x h (List.nodup_cons.mp hnd).2,
        updateStep_other f m a x hxa]

theorem seed_lookup_not_mem :
    ∀ (subs : List StudentSubmission) (m : DraftMap) (x : ℕ),
      x ∉ subs.map (fun s => s.userId) →
      subs.foldl (fun drafts sub => setDraft drafts sub.userId (mkInitialDraft sub)) m x = m x
  | [], _, _, _ => rfl
  | s :: t, m, x, hx => by
    have hxs : x ≠ s.userId := by
      intro e
      exact hx (by simp [e])
    have hxt : x ∉ t.map (fun s => s.userId) := by
      intro h
      exact hx (by simp [List.mem_map] at h ⊢; exact Or.inr h)
    calc (s :: t).foldl (fun drafts sub => setDraft drafts sub.userId (mkInitialDraft sub)) m x
        = t.foldl (fun drafts sub => setDraft drafts sub.userId (mkInitialDraft sub))
            (setDraft m s.userId (mkInitialDraft s)) x := rfl
      _ = setDraft m s.userId (mkInitialDraft s) x := seed_lookup_not_mem t _ x hxt
      _ = m x := setDraft_other m s.userId x _ hxs

theorem seed_lookup_mem :
    ∀ (subs : List StudentSubmission) (m : DraftMap) (s : StudentSubmission),
      s ∈ subs → (subs.map (fun s => s.userId)).Nodup →
      subs.foldl (fun drafts sub => setDraft drafts sub.userId (mkInitialDraft sub)) m s.userId
        = some (mkInitialDraft s)
  | [], _, s, hs, _ => absurd hs (List.not_mem_nil s)
  | a :: t, m, s, hs, hnd => by
    rw [List.map_cons] at hnd
    have hnd' := List.nodup_cons.mp hnd
    rcases List.mem_cons.mp hs with h | h
    · subst h
      have hnt : s.userId ∉ t.map (fun x => x.userId) := hnd'.1
      calc (s :: t).foldl (fun drafts sub => setDraft drafts sub.userId (mkInitialDraft sub)) m s.userId
          = t.foldl (fun drafts sub => setDraft drafts sub.userId (mkInitialDraft sub))
              (setDraft m s.userId (mkInitialDraft s)) s.userId := rfl
        _ = setDraft m s.userId (mkInitialDraft s) s.userId := seed_lookup_not_mem t _ _ hnt
        _ = some (mkInitialDraft s) := setDraft_self m s.userId _
    · exact seed_lookup_mem t _ s h hnd'.2

theorem seed_lookup_none_iff :
    ∀ (subs : List StudentSubmission) (m : DraftMap) (x : ℕ),
      subs.foldl (fun drafts sub => setDraft drafts sub.userId (mkInitialDraft sub)) m x
          = Option.none
        ↔ (m x = Option.none ∧ x ∉ subs.map (fun s => s.userId))
  | [], m, x => by simp
  | a :: t, m, x => by
    constructor
    · intro h
      have := (seed_lookup_none_iff t (setDraft m a.userId (mkInitialDraft a)) x).mp h
      rcases this with ⟨h1, h2⟩
      by_cases hxa : x = a.userId
      · rw [hxa, setDraft_self] at h1
        cases h1
      · rw [setDraft_other m a.userId x _ hxa] at h1
        exact ⟨h1, by simp [hxa, h2]⟩
    · intro ⟨h1, h2⟩
      have hxa : x ≠ a.userId := by
        intro e
        exact h2 (by simp [e])
      have hxt : x ∉ t.map (fun s => s.userId) := by
        intro hm
        exact h2 (by simp at hm ⊢; exact Or.inr hm)
      exact (seed_lookup_none_iff t _ x).mpr
        ⟨by
          show setDraft m a.userId (mkInitialDraft a) x = Option.none
          rw [setDraft_other m a.userId x _ hxa]; exact h1, hxt⟩

theorem objGet_map_of_nodup
    (g : RubricAssessment → String) :
    ∀ (entries : List (String × RubricAssessment)),
      (entries.map Prod.fst).Nodup →
      ∀ (cid : String) (a : RubricAssessment), (cid, a) ∈ entries →
        objGet (entries.map (fun kv => (kv.1, g kv.2))) cid = some (g a)
  | [], _, cid, a, ha => absurd ha (List.not_mem_nil (cid, a))
  | e :: t, hnd, cid, a, ha => by
    rw [List.map_cons] at hnd
    have hnd' := List.nodup_cons.mp hnd
    rcases List.mem_cons.mp ha with h | h
    · rw [← h]
      simp [objGet, List.find?]
    · have hmem : cid ∈ t.map Prod.fst := by
        have := List.mem_map_of_mem Prod.fst h
        simpa using this
      have hne : e.1 ≠ cid := by
        intro he
        exact hnd'.1 (he ▸ hmem)
      have ih := objGet_map_of_nodup g t hnd'.2 cid a h
      simpa [objGet, List.find?, hne] using ih

/-! Claim C1: dirty flags and the derived `synced` flag. -/

/-- C1 counterexample.  The claim states that after every edit operation
`synced` holds iff none of `gradeDirty`, `commentDirty`, `statusDirty`,
`rubricCommentsDirty` is set.  Concretely: `c1Drafts` holds a draft whose only
dirty flag is `statusDirty` (all three value/base pairs match their flags);
after the edit `setComment(1, "")` — a comment equal to the base comment — the
resulting draft has `statusDirty = true` yet `synced = true`, because
`updateDraft` recomputes `synced` from `gradeDirty` and `commentDirty` alone.
This refutes the claimed iff, so the claim as stated is false. -/
theorem draftFlags_claim_counterexample :
    ((handleCommentChange 1 "" c1Drafts) 1).map
        (fun d => (d.synced, d.gradeDirty, d.commentDirty, d.statusDirty,
          d.rubricCommentsDirty))
      = some (true, false, false, true, false)
    ∧ (c1Drafts 1).map
        (fun d => (decide (d.grade = d.baseGrade), decide (d.comment = d.baseComment),
          d.gradeDirty, d.commentDirty, d.statusDirty))
      = some (true, true, false, false, true) := by
  constructor
  · rfl
  · rfl

/-- C1 amended.  After `setGrade`/`setComment` (`updateDraft`), `gradeDirty`
and `commentDirty` are pure functions of the (current, base) pairs and the
other two flags are carried over, but `synced` is recomputed from `gradeDirty`
and `commentDirty` only.  After `setStatus`, `statusDirty` is a pure function
of (status, baseStatus) and `synced` is recomputed from the three value flags,
ignoring `rubricCommentsDirty`.  After `setRubricComment`,
`rubricCommentsDirty := true` and hence `synced = false`.  Copy-to-group for a
comment sets `commentDirty := true` and `synced := false` unconditionally (no
comparison with the base); copy-to-group for a grade recomputes `gradeDirty`
purely but still forces `synced := false`.  The clear operations reset
current := base and clear all four flags with `synced := true`. -/
theorem draftFlags_amended (d : DraftState) (p : DraftPatch) (st : SubmissionStatus)
    (cid v c : String) (g : ℚ) :
    ((updateDraftNext d p).gradeDirty = decide ((updateDraftNext d p).grade ≠ d.baseGrade)
      ∧ (updateDraftNext d p).commentDirty
          = decide ((updateDraftNext d p).comment ≠ d.baseComment)
      ∧ (updateDraftNext d p).statusDirty = d.statusDirty
      ∧ (updateDraftNext d p).rubricCommentsDirty = d.rubricCommentsDirty
      ∧ (updateDraftNext d p).synced
          = (!((updateDraftNext d p).gradeDirty || (updateDraftNext d p).commentDirty)))
    ∧ ((statusNext d st).statusDirty = decide ((statusNext d st).status ≠ d.baseStatus)
      ∧ (statusNext d st).gradeDirty = d.gradeDirty
      ∧ (statusNext d st).commentDirty = d.commentDirty
      ∧ (statusNext d st).rubricCommentsDirty = d.rubricCommentsDirty
      ∧ (statusNext d st).synced
          = (!((statusNext d st).gradeDirty || (statusNext d st).commentDirty
              || (statusNext d st).statusDirty)))
    ∧ ((rubricCommentNext d cid v).rubricCommentsDirty = true
      ∧ (rubricCommentNext d cid v).synced = false
      ∧ (rubricCommentNext d cid v).gradeDirty = d.gradeDirty
      ∧ (rubricCommentNext d cid v).commentDirty = d.commentDirty
      ∧ (rubricCommentNext d cid v).statusDirty = d.statusDirty)
    ∧ ((copyCommentNext d c).commentDirty = true
      ∧ (copyCommentNext d c).synced = false
      ∧ (copyCommentNext d c).comment = c)
    ∧ ((copyGradeNext d g).gradeDirty = decide ((copyGradeNext d g).grade ≠ d.baseGrade)
      ∧ (copyGradeNext d g).synced = false
      ∧ (copyGradeNext d g).grade = some g)
    ∧ ((clearDraft d).grade = d.baseGrade
      ∧ (clearDraft d).comment = d.baseComment
      ∧ (clearDraft d).status = d.baseStatus
      ∧ (clearDraft d).gradeDirty = false
      ∧ (clearDraft d).commentDirty = false
      ∧ (clearDraft d).statusDirty = false
      ∧ (clearDraft d).rubricCommentsDirty = false
      ∧ (clearDraft d).synced = true) := by
  refine ⟨⟨rfl, rfl, rfl, rfl, rfl⟩, ⟨rfl, rfl, rfl, rfl, rfl⟩,
    ⟨rfl, ?_, rfl, rfl, rfl⟩, ⟨rfl, rfl, rfl⟩, ⟨rfl, rfl, rfl⟩,
    ⟨rfl, rfl, rfl, rfl, rfl, rfl, rfl, rfl⟩⟩
  simp [rubricCommentNext]

/-! Claim C2: reconciliation after a push. -/

theorem reconcileDrafts_unfold (results : List SyncResult) (drafts : DraftMap) :
    reconcileDrafts results drafts
      = updateEach reconcileOne
          ((results.filter (fun r => r.success)).map (fun r => r.userId)) drafts := rfl

/-- C2.  Given the results of a push with pairwise-distinct user ids (one
result per student, as the gateway produces), reconciliation sets, for every
result with `success = true` whose user has a draft, `baseGrade := grade` and
`baseComment := comment`, clears all four dirty flags and sets
`synced := true`; the draft of every user whose result has `success = false`
is left entirely unchanged. -/
theorem reconcileDrafts_success_and_failure (results : List SyncResult)
    (drafts : DraftMap) (hnd : (results.map (fun r => r.userId)).Nodup)
    (r : SyncResult) (hr : r ∈ results) :
    (r.success = true → ∀ d, drafts r.userId = some d →
      reconcileDrafts results drafts r.userId = some
        { d with
          baseGrade := d.grade
          baseComment := d.comment
          gradeDirty := false
          commentDirty := false
          statusDirty := false
          rubricCommentsDirty := false
          synced := true })
    ∧ (r.success = false →
        reconcileDrafts results drafts r.userId = drafts r.userId) := by
  have hsub : ((results.filter (fun r => r.success)).map (fun r => r.userId)).Sublist
      (results.map (fun r => r.userId)) := (List.filter_sublist results).map _
  have hndS : ((results.filter (fun r => r.success)).map (fun r => r.userId)).Nodup :=
    hnd.sublist hsub
  constructor
  · intro hs d hd
    have hrf : r ∈ results.filter (fun r => r.success) :=
      List.mem_filter.mpr ⟨hr, by simp [hs]⟩
    have hmem : r.userId ∈ (results.filter (fun r => r.success)).map (fun r => r.userId) :=
      List.mem_map_of_mem _ hrf
    rw [reconcileDrafts_unfold,
      updateEach_lookup_mem reconcileOne _ drafts r.userId hmem hndS, hd]
    rfl
  · intro hs
    have hnotmem : r.userId ∉ (results.filter (fun r => r.success)).map
        (fun r => r.userId) := by
      intro hmem
      rcases List.mem_map.mp hmem with ⟨r', hr', he⟩
      have hr'r : r' ∈ results := (List.mem_filter.mp hr').1
      have heq : r' = r := List.inj_on_of_nodup_map hnd hr'r hr he
      have hsucc : r'.success = true := by simpa using (List.mem_filter.mp hr').2
      rw [heq, hs] at hsucc
      cases hsucc
    rw [reconcileDrafts_unfold,
      updateEach_lookup_not_mem reconcileOne _ drafts r.userId hnotmem]

/-- C2 witness: in `c2Results`, user 1 succeeded and user 2 failed; user 1's
draft is reconciled and user 2's is untouched. -/
theorem reconcileDrafts_success_and_failure_witness :
    reconcileDrafts c2Results c2Drafts 1 = some
      { c2Draft1 with
        baseGrade := c2Draft1.grade
        baseComment := c2Draft1.comment
        gradeDirty := false
        commentDirty := false
        statusDirty := false
        rubricCommentsDirty := false
        synced := true }
    ∧ reconcileDrafts c2Results c2Drafts 2 = c2Drafts 2 := by
  constructor
  · exact (reconcileDrafts_success_and_failure c2Results c2Drafts (by decide)
      { userId := 1, success := true, errors := Option.none } (by decide)).1 rfl
      c2Draft1 (by decide)
  · exact (reconcileDrafts_success_and_failure c2Results c2Drafts (by decide)
      { userId := 2, success := false, errors := some ["Failed to sync with Canvas"] }
      (by decide)).2 rfl

/-! Claim C3: initial draft creation. -/

/-- C3.  For a submission list with pairwise-distinct user ids,
`createInitialDrafts` maps each submission's user id to its seeded draft:
status derived with precedence excused > missing > late > none, grade equal
to the remote score (`none` when absent), empty comment, rubric comments
seeded from the existing assessments (`objGet` of the entry's comment, with
`''` for a falsy comment), bases mirroring the current values, all four dirty
flags false and `synced = true`; the map holds no entry for any other id. -/
theorem createInitialDrafts_spec (subs : List StudentSubmission)
    (hnd : (subs.map (fun s => s.userId)).Nodup)
    (s : StudentSubmission) (hs : s ∈ subs) :
    createInitialDrafts subs s.userId = some (mkInitialDraft s)
    ∧ (mkInitialDraft s).status
        = (if s.excused then SubmissionStatus.excused
          else if s.missing then SubmissionStatus.missing
          else if s.late then SubmissionStatus.late
          else SubmissionStatus.none)
    ∧ (mkInitialDraft s).grade = s.score
    ∧ (mkInitialDraft s).comment = ""
    ∧ (∀ entries, s.rubricAssessments = some entries → (entries.map Prod.fst).Nodup →
        ∀ cid a, (cid, a) ∈ entries →
          objGet (mkInitialDraft s).rubricComments cid = some (jsOrStr a.comments ""))
    ∧ (s.rubricAssessments = Option.none → (mkInitialDraft s).rubricComments = [])
    ∧ (mkInitialDraft s).baseGrade = (mkInitialDraft s).grade
    ∧ (mkInitialDraft s).baseComment = (mkInitialDraft s).comment
    ∧ (mkInitialDraft s).baseStatus = (mkInitialDraft s).status
    ∧ (mkInitialDraft s).gradeDirty = false
    ∧ (mkInitialDraft s).commentDirty = false
    ∧ (mkInitialDraft s).statusDirty = false
    ∧ (mkInitialDraft s).rubricCommentsDirty = false
    ∧ (mkInitialDraft s).synced = true
    ∧ (∀ uid, createInitialDrafts subs uid = Option.none
        ↔ uid ∉ subs.map (fun s => s.userId)) := by
  refine ⟨?_, rfl, rfl, rfl, ?_, ?_, rfl, rfl, rfl, rfl, rfl, rfl, rfl, rfl, ?_⟩
  · exact seed_lookup_mem subs (fun _ => Option.none) s hs hnd
  · intro entries he hnodup cid a ha
    have hr : (mkInitialDraft s).rubricComments
        = entries.map (fun kv => (kv.1, jsOrStr kv.2.comments "")) := by
      simp [mkInitialDraft, he]
    rw [hr]
    exact objGet_map_of_nodup (fun a => jsOrStr a.comments "") entries hnodup cid a ha
  · intro h
    simp [mkInitialDraft, h]
  · intro uid
    have := seed_lookup_none_iff subs (fun _ => Option.none) uid
    simpa using this

/-- C3 witness on the single-submission list `[c3Sub]` (late, score 88, one
rubric assessment with comment `"good"`). -/
theorem createInitialDrafts_spec_witness :
    createInitialDrafts [c3Sub] 7 = some (mkInitialDraft c3Sub)
    ∧ objGet (mkInitialDraft c3Sub).rubricComments "c1" = some "good"
    ∧ (createInitialDrafts [c3Sub] 8 = Option.none ↔ (8 : ℕ) ∉ [c3Sub].map (fun s => s.userId)) := by
  have h := createInitialDrafts_spec [c3Sub] (by decide) c3Sub (by decide)
  refine ⟨h.1, ?_, h.2.2.2.2.2.2.2.2.2.2.2.2.2.2 8⟩
  have hr := h.2.2.2.2.1 [("c1", c3Assessment)] rfl (by decide) "c1" c3Assessment (by decide)
  simpa [jsOrStr, c3Assessment] using hr

/-! Claim C4: flush-time update building and filtering. -/

/-- C4 counterexample.  The claim states a student's update is in the flushed
batch iff their draft has at least one dirty flag set, "including a draft
whose only dirty flag is statusDirty".  Concretely: `c4Drafts` holds, for the
single submission `c4Sub`, a draft whose only dirty flag is `statusDirty`;
the flushed batch is empty, because the built updates carry no status change
and the caller filter tests only the grade, comment and rubric flags.  So the
claimed iff is false. -/
theorem flushFilter_counterexample :
    toSend (buildUpdates [c4Sub] c4Drafts) = []
    ∧ (c4Drafts 1).map (fun d =>
        d.gradeDirty || d.commentDirty || d.statusDirty || d.rubricCommentsDirty)
      = some true := by
  constructor
  · rfl
  · rfl

/-- C4 amended.  At flush time one update is built for every submission that
has a draft, regardless of dirtiness, carrying the draft's grade, comment and
rubric-comments flags and values but no status keys; the batch actually sent
is exactly the built updates with `gradeChanged`, `commentChanged` or
`rubricCommentsChanged` true — so a draft whose only dirty flag is
`statusDirty` is excluded from the flushed batch. -/
theorem flushFilter_amended (subs : List StudentSubmission) (drafts : DraftMap) :
    (∀ s, s ∈ subs → ∀ d, drafts s.userId = some d →
      mkUpdate s d ∈ buildUpdates subs drafts)
    ∧ (∀ s d, (mkUpdate s d).gradeChanged = d.gradeDirty
        ∧ (mkUpdate s d).commentChanged = d.commentDirty
        ∧ (mkUpdate s d).rubricCommentsChanged = d.rubricCommentsDirty
        ∧ (mkUpdate s d).newGrade = d.grade
        ∧ (mkUpdate s d).newComment = some d.comment
        ∧ (mkUpdate s d).newRubricComments = some d.rubricComments
        ∧ (mkUpdate s d).statusChanged = Option.none
        ∧ (mkUpdate s d).newStatus = Option.none)
    ∧ (∀ u, u ∈ toSend (buildUpdates subs drafts)
        ↔ u ∈ buildUpdates subs drafts
          ∧ (u.gradeChanged || u.commentChanged || u.rubricCommentsChanged) = true)
    ∧ (∀ s d, s ∈ subs → drafts s.userId = some d →
        d.gradeDirty = false → d.commentDirty = false → d.rubricCommentsDirty = false →
        mkUpdate s d ∉ toSend (buildUpdates subs drafts)) := by
  refine ⟨?_, ?_, ?_, ?_⟩
  · intro s hs d hd
    exact List.mem_filterMap.mpr ⟨s, hs, by rw [hd]; rfl⟩
  · intro s d
    exact ⟨rfl, rfl, rfl, rfl, rfl, rfl, rfl, rfl⟩
  · intro u
    exact List.mem_filter
  · intro s d _ _ h1 h2 h3 hmem
    have hp := (List.mem_filter.mp hmem).2
    simp [mkUpdate, h1, h2, h3] at hp

/-- C4 witness: a grade-dirty draft's update is in the built list, and the
statusDirty-only draft's update is not in the flushed batch. -/
theorem flushFilter_amended_witness :
    mkUpdate c4Sub c4DirtyDraft ∈ buildUpdates [c4Sub] c4DirtyDrafts
    ∧ mkUpdate c4Sub c4Draft ∉ toSend (buildUpdates [c4Sub] c4Drafts) := by
  constructor
  · exact (flushFilter_amended [c4Sub] c4DirtyDrafts).1 c4Sub (by decide)
      c4DirtyDraft (by decide)
  · exact (flushFilter_amended [c4Sub] c4Drafts).2.2.2 c4Sub c4Draft (by decide)
      (by decide) (by decide) (by decide) (by decide)

/-! Claim C5: grade-input validation. -/

/-- C5.  For a user with an existing draft: a non-empty input that does not
parse as a number leaves the entire draft map unchanged (silent rejection);
an empty input sets the draft's grade to `null`; a numeric input sets it to
the parsed number. -/
theorem handleGradeChange_validation (userId : ℕ) (drafts : DraftMap) (value : String) :
    (value ≠ "" → jsNumber value = Option.none →
      handleGradeChange userId value drafts = drafts)
    ∧ (∀ d, drafts userId = some d →
        ((handleGradeChange userId "" drafts) userId).map (fun d2 => d2.grade)
          = some Option.none)
    ∧ (∀ q d, value ≠ "" → jsNumber value = some q → drafts userId = some d →
        ((handleGradeChange userId value drafts) userId).map (fun d2 => d2.grade)
          = some (some q)) := by
  refine ⟨?_, ?_, ?_⟩
  · intro h1 h2
    simp [handleGradeChange, h1, h2]
  · intro d hd
    simp [handleGradeChange, updateDraft, hd, updateDraftNext, setDraft_self]
  · intro q d h1 h2 hd
    simp [handleGradeChange, h1, h2, updateDraft, hd, updateDraftNext, setDraft_self]

/-- C5 witness: on `c5Drafts`, the input `"abc"` is rejected with the map
unchanged, `""` clears the grade, and `"85"` sets it to 85. -/
theorem handleGradeChange_validation_witness :
    handleGradeChange 3 "abc" c5Drafts = c5Drafts
    ∧ ((handleGradeChange 3 "" c5Drafts) 3).map (fun d => d.grade) = some Option.none
    ∧ ((handleGradeChange 3 "85" c5Drafts) 3).map (fun d => d.grade)
        = some (some 85) := by
  refine ⟨(handleGradeChange_validation 3 c5Drafts "abc").1 (by decide) (by decide),
    (handleGradeChange_validation 3 c5Drafts "").2.1 c5Draft (by decide),
    (handleGradeChange_validation 3 c5Drafts "85").2.2 85 c5Draft (by decide)
      (by decide) (by decide)⟩

/-! Claim C6: clear-one and clear-all. -/

/-- C6 counterexample.  The claim states that after `clearOne` the
rubric-comments field is "restored to its base snapshot".  Concretely: the
draft for user 1 is created from `c6Sub` (rubric comment base `"orig"`), then
edited to `"edited"`; after `handleClearStudentStaged 1` the rubric comment
is still `"edited"`, not `"orig"` — only the `rubricCommentsDirty` flag is
cleared (a `DraftState` stores no base rubric snapshot to restore).  So the
claim as stated is false. -/
theorem clearStaged_counterexample :
    ((handleClearStudentStaged 1 c6DraftsEdited) 1).map
        (fun d => (objGet d.rubricComments "c1", d.rubricCommentsDirty, d.synced))
      = some (some "edited", false, true)
    ∧ (c6DraftsEdited 1).map (fun d => objGet d.rubricComments "c1")
        = some (some "edited")
    ∧ (createInitialDrafts [c6Sub] 1).map (fun d => objGet d.rubricComments "c1")
        = some (some "orig") := by
  refine ⟨rfl, rfl, rfl⟩

/-- C6 amended.  `clearOne(userId)` on an existing draft resets grade,
comment and status to their base values, clears all four dirty flags and sets
`synced := true`, leaving other users untouched and issuing no network call
(both handlers are pure map rewrites); `clearAll` does the same for every
entry.  The `rubricComments` value itself is left at its current (possibly
edited) contents — there is no stored base snapshot to restore. -/
theorem clearStaged_amended (drafts : DraftMap) (userId : ℕ) :
    (∀ d, drafts userId = some d →
      (handleClearStudentStaged userId drafts) userId = some (clearDraft d)
      ∧ (clearDraft d).grade = d.baseGrade
      ∧ (clearDraft d).comment = d.baseComment
      ∧ (clearDraft d).status = d.baseStatus
      ∧ (clearDraft d).gradeDirty = false
      ∧ (clearDraft d).commentDirty = false
      ∧ (clearDraft d).statusDirty = false
      ∧ (clearDraft d).rubricCommentsDirty = false
      ∧ (clearDraft d).synced = true
      ∧ (clearDraft d).rubricComments = d.rubricComments)
    ∧ (∀ x, x ≠ userId → (handleClearStudentStaged userId drafts) x = drafts x)
    ∧ (drafts userId = Option.none → handleClearStudentStaged userId drafts = drafts)
    ∧ (∀ x d, drafts x = some d → handleClearAllStaged drafts x = some (clearDraft d))
    ∧ (∀ x, drafts x = Option.none → handleClearAllStaged drafts x = Option.none) := by
  refine ⟨?_, ?_, ?_, ?_, ?_⟩
  · intro d hd
    refine ⟨?_, rfl, rfl, rfl, rfl, rfl, rfl, rfl, rfl, rfl⟩
    unfold handleClearStudentStaged
    rw [hd]
    exact setDraft_self drafts userId (clearDraft d)
  · intro x hx
    unfold handleClearStudentStaged
    cases hd : drafts userId with
    | none => rfl
    | some d => exact setDraft_other drafts userId x (clearDraft d) hx
  · intro h
    unfold handleClearStudentStaged
    rw [h]
  · intro x d hd
    simp [handleClearAllStaged, hd]
  · intro x h
    simp [handleClearAllStaged, h]

/-- C6 witness on `c6SimpleDrafts` (user 4, edits staged on every field). -/
theorem clearStaged_amended_witness :
    (handleClearStudentStaged 4 c6SimpleDrafts) 4 = some (clearDraft c6SimpleDraft)
    ∧ (handleClearStudentStaged 4 c6SimpleDrafts) 5 = c6SimpleDrafts 5
    ∧ handleClearAllStaged c6SimpleDrafts 4 = some (clearDraft c6SimpleDraft) := by
  refine ⟨((clearStaged_amended c6SimpleDrafts 4).1 c6SimpleDraft (by decide)).1,
    (clearStaged_amended c6SimpleDrafts 4).2.1 5 (by decide),
    (clearStaged_amended c6SimpleDrafts 4).2.2.2.1 4 c6SimpleDraft (by decide)⟩

/-! Helper lemmas for the push loop. -/

theorem pushFold_acc (writeOk : ℕ → Payload → Bool) :
    ∀ (updates : List SubmissionUpdate) (acc : List SyncResult × List (ℕ × Payload)),
      updates.foldl
          (fun acc u =>
            let step := pushStep writeOk u
            (acc.1 ++ [step.1], acc.2 ++ step.2)) acc
        = (acc.1 ++ updates.map (fun u => (pushStep writeOk u).1),
           acc.2 ++ updates.flatMap (fun u => (pushStep writeOk u).2))
  | [], acc => by simp
  | u :: t, acc => by
    rw [List.foldl_cons, pushFold_acc writeOk t _]
    simp

theorem pushSubmissionUpdates_eq (writeOk : ℕ → Payload → Bool)
    (updates : List SubmissionUpdate) :
    pushSubmissionUpdates writeOk updates
      = (updates.map (fun u => (pushStep writeOk u).1),
         updates.flatMap (fun u => (pushStep writeOk u).2)) := by
  unfold pushSubmissionUpdates
  rw [pushFold_acc]
  simp

theorem pushStep_trace (writeOk : ℕ → Payload → Bool) (u : SubmissionUpdate) :
    (pushStep writeOk u).2
      = (if u.gradeChanged || u.commentChanged || u.rubricCommentsChanged then
          [(u.userId, buildPayload u)]
        else []) := by
  cases hg : u.gradeChanged <;> cases hc : u.commentChanged <;>
    cases hr : u.rubricCommentsChanged <;>
    cases hw : writeOk u.userId (buildPayload u) <;>
    simp [pushStep, hg, hc, hr, hw]

theorem pushTrace_filter (writeOk : ℕ → Payload → Bool) :
    ∀ (updates : List SubmissionUpdate),
      updates.flatMap (fun u => (pushStep writeOk u).2)
        = (updates.filter
            (fun u => u.gradeChanged || u.commentChanged || u.rubricCommentsChanged)).map
            (fun u => (u.userId, buildPayload u))
  | [] => rfl
  | u :: t => by
    rw [List.flatMap_cons, pushTrace_filter writeOk t, pushStep_trace, List.filter_cons]
    by_cases h : (u.gradeChanged || u.commentChanged || u.rubricCommentsChanged) = true
    · simp [h]
    · simp [h]

theorem pushStep_userId (writeOk : ℕ → Payload → Bool) (u : SubmissionUpdate) :
    (pushStep writeOk u).1.userId = u.userId := by
  cases hg : u.gradeChanged <;> cases hc : u.commentChanged <;>
    cases hr : u.rubricCommentsChanged <;>
    cases hw : writeOk u.userId (buildPayload u) <;>
    simp [pushStep, hg, hc, hr, hw]

/-! Claim C7: the sync gateway's result list and payloads. -/

/-- C7.  `pushSubmissionUpdates` returns exactly one `SyncResult` per input
update, in input order and with the matching user id (the result list is the
per-item map of `pushStep`, so each item's outcome depends only on its own
update and write, and a failure cannot abort or affect the rest); each
issued write's payload contains the grade key iff `gradeChanged`, the comment
key iff `commentChanged`, and rubric-comment keys only when
`rubricCommentsChanged`; a failed write yields `success = false` with the
generic error string for that item. -/
theorem pushSubmissionUpdates_results_spec (writeOk : ℕ → Payload → Bool)
    (updates : List SubmissionUpdate) :
    ((pushSubmissionUpdates writeOk updates).1.length = updates.length)
    ∧ ((pushSubmissionUpdates writeOk updates).1.map (fun r => r.userId)
        = updates.map (fun u => u.userId))
    ∧ ((pushSubmissionUpdates writeOk updates).1
        = updates.map (fun u => (pushStep writeOk u).1))
    ∧ (∀ u : SubmissionUpdate,
        ((∃ v, (PayloadKey.postedGrade, v) ∈ buildPayload u) ↔ u.gradeChanged = true)
        ∧ ((∃ v, (PayloadKey.textComment, v) ∈ buildPayload u) ↔ u.commentChanged = true)
        ∧ (∀ cid v, (PayloadKey.rubricComment cid, v) ∈ buildPayload u →
            u.rubricCommentsChanged = true))
    ∧ (∀ u, (u.gradeChanged || u.commentChanged || u.rubricCommentsChanged) = true →
        writeOk u.userId (buildPayload u) = false →
        (pushStep writeOk u).1
          = { userId := u.userId, success := false,
              errors := some ["Failed to sync with Canvas"] }) := by
  refine ⟨?_, ?_, ?_, ?_, ?_⟩
  · rw [pushSubmissionUpdates_eq]
    simp
  · rw [pushSubmissionUpdates_eq]
    simp [pushStep_userId]
  · rw [pushSubmissionUpdates_eq]
  · intro u
    refine ⟨?_, ?_, ?_⟩
    · cases hg : u.gradeChanged <;> cases hc : u.commentChanged <;>
        cases hr : u.rubricCommentsChanged <;>
        cases hm : u.newRubricComments <;>
        simp [buildPayload, hg, hc, hr, hm]
    · cases hg : u.gradeChanged <;> cases hc : u.commentChanged <;>
        cases hr : u.rubricCommentsChanged <;>
        cases hm : u.newRubricComments <;>
        simp [buildPayload, hg, hc, hr, hm]
    · intro cid v hv
      by_contra hr
      rw [Bool.not_eq_true] at hr
      cases hg : u.gradeChanged <;> cases hc : u.commentChanged <;>
        simp [buildPayload, hg, hc, hr] at hv
  · intro u hflag hw
    have hskip : (!u.gradeChanged && !u.commentChanged && !u.rubricCommentsChanged) = false := by
      cases hg : u.gradeChanged <;> cases hc : u.commentChanged <;>
        cases hr : u.rubricCommentsChanged <;> simp_all
    simp [pushStep, hskip, hw]

/-- C7 witness: pushing a grade-only update for user 1 and a comment-only
update for user 2 under an oracle failing user 2's writes yields results for
users 1 and 2 in order, a generic failure for user 2, and a comment key in
user 2's payload. -/
theorem pushSubmissionUpdates_results_spec_witness :
    (pushSubmissionUpdates c7WriteOk [c7Upd1, c7Upd2]).1.map (fun r => r.userId) = [1, 2]
    ∧ (pushStep c7WriteOk c7Upd2).1
        = { userId := 2, success := false, errors := some ["Failed to sync with Canvas"] }
    ∧ (∃ v, (PayloadKey.textComment, v) ∈ buildPayload c7Upd2) := by
  refine ⟨?_, ?_, ?_⟩
  · have h := (pushSubmissionUpdates_results_spec c7WriteOk [c7Upd1, c7Upd2]).2.1
    rw [h]
    rfl
  · exact (pushSubmissionUpdates_results_spec c7WriteOk [c7Upd1, c7Upd2]).2.2.2.2
      c7Upd2 (by decide) (by decide)
  · exact ((pushSubmissionUpdates_results_spec c7WriteOk [c7Upd1, c7Upd2]).2.2.2.1
      c7Upd2).2.1.mpr (by decide)

/-! Claim C10: updates with no change flags are skipped. -/

/-- C10.  An update whose `gradeChanged`, `commentChanged` and
`rubricCommentsChanged` flags are all false issues no remote write (the write
trace contains entries only for flagged updates, and its own step's trace is
empty) and its result is `success = true` with no error strings. -/
theorem pushSubmissionUpdates_skip_unchanged (writeOk : ℕ → Payload → Bool)
    (updates : List SubmissionUpdate) :
    ((pushSubmissionUpdates writeOk updates).2
      = (updates.filter
          (fun u => u.gradeChanged || u.commentChanged || u.rubricCommentsChanged)).map
          (fun u => (u.userId, buildPayload u)))
    ∧ (∀ u, u.gradeChanged = false → u.commentChanged = false →
        u.rubricCommentsChanged = false →
        (pushStep writeOk u).1
            = { userId := u.userId, success := true, errors := Option.none }
        ∧ (pushStep writeOk u).2 = [])
    ∧ ((pushSubmissionUpdates writeOk updates).1
        = updates.map (fun u => (pushStep writeOk u).1)) := by
  refine ⟨?_, ?_, ?_⟩
  · rw [pushSubmissionUpdates_eq]
    exact pushTrace_filter writeOk updates
  · intro u h1 h2 h3
    constructor
    · simp [pushStep, h1, h2, h3]
    · simp [pushStep, h1, h2, h3]
  · rw [pushSubmissionUpdates_eq]

/-- C10 witness on the flagless update `c10Upd`. -/
theorem pushSubmissionUpdates_skip_unchanged_witness :
    (pushStep c10WriteOk c10Upd).1
        = { userId := 9, success := true, errors := Option.none }
    ∧ (pushStep c10WriteOk c10Upd).2 = []
    ∧ (pushSubmissionUpdates c10WriteOk [c10Upd]).2 = [] := by
  have h := (pushSubmissionUpdates_skip_unchanged c10WriteOk [c10Upd]).2.1 c10Upd
    (by decide) (by decide) (by decide)
  refine ⟨h.1, h.2, ?_⟩
  rw [(pushSubmissionUpdates_skip_unchanged c10WriteOk [c10Upd]).1]
  rfl

/-! Claim C8: config merge-on-write semantics. -/

/-- C8 counterexample.  The claim states that an explicit `null` for any of
the settable keys — `baseUrl` among them — clears the stored value.
Concretely: on the stored config `cfg8`, applying an update whose `baseUrl`
is an explicit `null` leaves `baseUrl` at its stored value (the source merges
it with `update.baseUrl ?? existing.baseUrl`, and the route handler drops a
non-string `baseUrl` before it ever reaches the merge); the stored value is
not cleared to the empty default.  So the claim as stated is false. -/
theorem updateConfig_counterexample :
    (updateConfig cfg8 { baseUrl := Patch.null }).baseUrl = "https://canvas.example/api/v1"
    ∧ (updateConfig cfg8 { baseUrl := Patch.null }).baseUrl ≠ "" := by
  constructor
  · rfl
  · decide

/-- C8 amended.  `updateConfig` preserves every key absent from the update;
an explicit `null` clears `courseId`, `assignmentId` and `accessToken` (for
`accessToken` the empty string also clears), but an explicit `null` for
`baseUrl` is ignored and the stored value kept; an explicitly provided value
overwrites the stored one. -/
theorem updateConfig_merge_amended (existing : PrivateConfig) (update : ConfigUpdate) :
    (update.baseUrl = Patch.null →
      (updateConfig existing update).baseUrl = existing.baseUrl)
    ∧ (update.courseId = Patch.null →
        (updateConfig existing update).courseId = Option.none)
    ∧ (update.assignmentId = Patch.null →
        (updateConfig existing update).assignmentId = Option.none)
    ∧ (update.accessToken = Patch.null →
        (updateConfig existing update).accessToken = Option.none)
    ∧ (update.accessToken = Patch.value "" →
        (updateConfig existing update).accessToken = Option.none)
    ∧ (update.baseUrl = Patch.absent →
        (updateConfig existing update).baseUrl = existing.baseUrl)
    ∧ (update.courseId = Patch.absent →
        (updateConfig existing update).courseId = existing.courseId)
    ∧ (update.assignmentId = Patch.absent →
        (updateConfig existing update).assignmentId = existing.assignmentId)
    ∧ (update.accessToken = Patch.absent →
        (updateConfig existing update).accessToken = existing.accessToken)
    ∧ (update.keybindings = Option.none →
        (updateConfig existing update).keybindings = existing.keybindings)
    ∧ (update.logLevel = Option.none →
        (updateConfig existing update).logLevel = existing.logLevel)
    ∧ (∀ v, update.baseUrl = Patch.value v →
        (updateConfig existing update).baseUrl = v)
    ∧ (∀ v, update.courseId = Patch.value v →
        (updateConfig existing update).courseId = some v)
    ∧ (∀ v, update.assignmentId = Patch.value v →
        (updateConfig existing update).assignmentId = some v)
    ∧ (∀ v, update.accessToken = Patch.value v → v ≠ "" →
        (updateConfig existing update).accessToken = some v) := by
  refine ⟨?_, ?_, ?_, ?_, ?_, ?_, ?_, ?_, ?_, ?_, ?_, ?_, ?_, ?_, ?_⟩
  · intro h; simp [updateConfig, h]
  · intro h; simp [updateConfig, h]
  · intro h; simp [updateConfig, h]
  · intro h; simp [updateConfig, h]
  · intro h; simp [updateConfig, h]
  · intro h; simp [updateConfig, h]
  · intro h; simp [updateConfig, h]
  · intro h; simp [updateConfig, h]
  · intro h; simp [updateConfig, h]
  · intro h; simp [updateConfig, h]
  · intro h; simp [updateConfig, h]
  · intro v h; simp [updateConfig, h]
  · intro v h; simp [updateConfig, h]
  · intro v h; simp [updateConfig, h]
  · intro v h hv; simp [updateConfig, h, hv]

/-- C8 witness on the stored config `cfg8`: a `null` `courseId` clears it, a
`null` `accessToken` clears it, a provided `baseUrl` overwrites, an absent
`courseId` is preserved, and a `null` `baseUrl` is preserved. -/
theorem updateConfig_merge_amended_witness :
    (updateConfig cfg8 { courseId := Patch.null }).courseId = Option.none
    ∧ (updateConfig cfg8 { accessToken := Patch.null }).accessToken = Option.none
    ∧ (updateConfig cfg8 { baseUrl := Patch.value "https://other/api" }).baseUrl
        = "https://other/api"
    ∧ (updateConfig cfg8 {}).courseId = cfg8.courseId
    ∧ (updateConfig cfg8 { baseUrl := Patch.null }).baseUrl = cfg8.baseUrl := by
  refine ⟨(updateConfig_merge_amended cfg8 { courseId := Patch.null }).2.1 rfl,
    (updateConfig_merge_amended cfg8 { accessToken := Patch.null }).2.2.2.1 rfl,
    (updateConfig_merge_amended cfg8
      { baseUrl := Patch.value "https://other/api" }).2.2.2.2.2.2.2.2.2.2.2.1
      "https://other/api" rfl,
    (updateConfig_merge_amended cfg8 {}).2.2.2.2.2.2.1 rfl,
    (updateConfig_merge_amended cfg8 { baseUrl := Patch.null }).1 rfl⟩

/-! Claim C9: the public config view redacts the token. -/

/-- C9.  The public view has no access-token field by construction; its
`tokenPresent` is true iff a non-empty access token is set
(`Boolean(config.accessToken)`), and consequently two stored configs that
differ only in the value of a non-empty access token produce identical
public views. -/
theorem publicConfig_token_redaction (c : PrivateConfig) (t1 t2 : String) :
    ((getPublicConfig c).tokenPresent = true ↔ ∃ s, c.accessToken = some s ∧ s ≠ "")
    ∧ (t1 ≠ "" → t2 ≠ "" →
        getPublicConfig { c with accessToken := some t1 }
          = getPublicConfig { c with accessToken := some t2 }) := by
  constructor
  · cases h : c.accessToken with
    | none => simp [getPublicConfig, jsTruthyStr, h]
    | some s => simp [getPublicConfig, jsTruthyStr, h]
  · intro h1 h2
    simp [getPublicConfig, jsTruthyStr, h1, h2]

/-- C9 witness: two configs differing only in non-empty token values yield
the same public view, and `cfg9`'s view reports the token as present. -/
theorem publicConfig_token_redaction_witness :
    getPublicConfig { cfg9 with accessToken := some "secret-a" }
      = getPublicConfig { cfg9 with accessToken := some "secret-b" }
    ∧ (getPublicConfig cfg9).tokenPresent = true := by
  constructor
  · exact (publicConfig_token_redaction cfg9 "secret-a" "secret-b").2
      (by decide) (by decide)
  · exact (publicConfig_token_redaction cfg9 "x" "y").1.mpr
      ⟨"secret-a", rfl, by decide⟩

end GradeSpeeder
